import Mathlib

/-!
Verification of the pub/sub Lambda pipeline (publisher + subscriber).

The source is two Python AWS Lambda modules:
  * `src/publisher/lambda_function.py` — input validation (`validate_input`),
    envelope preparation, and retried SNS publishing (`publish_message`);
  * `src/subscriber/lambda_function.py` — batch record handling
    (`lambda_handler`), per-record processing (`process_sns_record`),
    correlation-id extraction, structure validation, and content dispatch
    (`process_message_content`).

Modelling conventions:
  * JSON-serializable Python values are the inductive `Json` below.  JSON
    numbers are modelled as integers (`Int`); floating-point literals are
    outside the model (no claim involves them).
  * Python `dict` preserves insertion order, so objects are ordered
    association lists.  Receivers of `.get`/`in` that the source types as
    `Dict` are modelled as `Json.obj`; where a receiver may dynamically be a
    non-dict, the access is modelled in `Except PyExn` and raises
    `AttributeError`, as CPython does.
  * `json.dumps` uses the CPython defaults (`ensure_ascii=True`, separators
    `", "` and `": "`); its output is pure ASCII, so the byte length used by
    the size checks equals the string length.
  * Randomness (`uuid.uuid4`) is an explicit input: a list of random bytes.
  * Wall-clock timestamps are an explicit opaque `String` input.
-/

/-- Left brace character, by code point. -/
def lbrace : Char := Char.ofNat 123

/-- Right brace character, by code point. -/
def rbrace : Char := Char.ofNat 125

/-- JSON-serializable Python values (numbers restricted to integers). -/
inductive Json where
  | null : Json
  | bool (b : Bool) : Json
  | num (n : Int) : Json
  | str (s : String) : Json
  | arr (xs : List Json) : Json
  | obj (kvs : List (String × Json)) : Json

namespace Json

/-- `isinstance(v, dict)`. -/
def isObj : Json → Bool
  | .obj _ => true
  | _ => false

/-- `isinstance(v, str)`. -/
def isStr : Json → Bool
  | .str _ => true
  | _ => false

/-- Dictionary key lookup (first binding wins, as Python dicts have unique
keys). Returns `none` on non-objects and missing keys. -/
def lookup (j : Json) (k : String) : Option Json :=
  match j with
  | .obj kvs => kvs.lookup k
  | _ => none

/-- `k in d` for a dict receiver. -/
def member (j : Json) (k : String) : Bool :=
  (j.lookup k).isSome

/-- `d.get(k, default)` for a dict receiver. -/
def getD (j : Json) (k : String) (d : Json) : Json :=
  (j.lookup k).getD d

/-- Python truthiness (`bool(v)`) for JSON-serializable values. -/
def pyTruthy : Json → Bool
  | .null => false
  | .bool b => b
  | .num n => n != 0
  | .str s => s != ""
  | .arr [] => false
  | .arr (_ :: _) => true
  | .obj [] => false
  | .obj (_ :: _) => true

/-- `type(v).__name__` for JSON-serializable values. -/
def pyTypeName : Json → String
  | .null => "NoneType"
  | .bool _ => "bool"
  | .num _ => "int"
  | .str _ => "str"
  | .arr _ => "list"
  | .obj _ => "dict"

end Json

/-- Characters `str.strip()` removes and `str.split()` splits on: CPython's
`Py_UNICODE_ISSPACE` set — the ASCII whitespace `\x09`-`\x0d` and space,
the C1 controls `\x1c`-`\x1f`, next line U+0085, no-break space U+00A0,
Ogham space mark U+1680, the Zs spaces U+2000-U+200A, line and paragraph
separators U+2028/U+2029, narrow no-break space U+202F, medium mathematical
space U+205F, and ideographic space U+3000. -/
def pyIsSpace (c : Char) : Bool :=
  let n := c.toNat
  (9 ≤ n && n ≤ 13) || (28 ≤ n && n ≤ 31) || n = 32 || n = 133 || n = 160 ||
    n = 5760 || (8192 ≤ n && n ≤ 8202) || n = 8232 || n = 8233 || n = 8239 ||
    n = 8287 || n = 12288

/-- `not s.strip()`: every character of `s` is whitespace. -/
def stripIsEmpty (s : String) : Bool :=
  s.data.all pyIsSpace

example : stripIsEmpty "\u00a0 \u2003" = true := by decide

example : stripIsEmpty " x " = false := by decide

/-- Lowercase hexadecimal digit. -/
def hexDigit (n : Nat) : Char :=
  if n < 10 then Char.ofNat (48 + n) else Char.ofNat (87 + n % 16)

/-- Four-digit lowercase hexadecimal rendering, as in a JSON escape. -/
def hex4 (n : Nat) : String :=
  String.mk [hexDigit (n / 4096 % 16), hexDigit (n / 256 % 16),
             hexDigit (n / 16 % 16), hexDigit (n % 16)]

/-- `json.dumps` escaping of one character under `ensure_ascii=True`:
quote and backslash are escaped, control characters use short escapes or
a unicode escape, every non-ASCII character uses unicode escapes (with a
surrogate pair above U+FFFF). -/
def escChar (c : Char) : String :=
  let n := c.toNat
  if c = '\"' then "\\\""
  else if c = '\\' then "\\\\"
  else if n = 10 then "\\n"
  else if n = 13 then "\\r"
  else if n = 9 then "\\t"
  else if n = 8 then "\\b"
  else if n = 12 then "\\f"
  else if n < 32 then "\\u" ++ hex4 n
  else if n < 127 then String.singleton c
  else if n < 65536 then "\\u" ++ hex4 n
  else
    "\\u" ++ hex4 (55296 + (n - 65536) / 1024) ++
    "\\u" ++ hex4 (56320 + (n - 65536) % 1024)

/-- `json.dumps` rendering of a string literal. -/
def escString (s : String) : String :=
  "\"" ++ String.join (s.data.map escChar) ++ "\""

mutual

/-- `json.dumps(v)` with CPython defaults: separators `", "` and `": "`,
`ensure_ascii=True`, insertion-ordered dict keys. -/
def Json.dumps : Json → String
  | .null => "null"
  | .bool true => "true"
  | .bool false => "false"
  | .num n => toString n
  | .str s => escString s
  | .arr [] => "[]"
  | .arr (x :: xs) => "[" ++ Json.dumps x ++ Json.dumpsArrTail xs ++ "]"
  | .obj [] => String.singleton lbrace ++ String.singleton rbrace
  | .obj ((k, v) :: kvs) =>
    String.singleton lbrace ++ escString k ++ ": " ++ Json.dumps v ++
      Json.dumpsObjTail kvs ++ String.singleton rbrace

/-- Remaining array elements, each preceded by `", "`. -/
def Json.dumpsArrTail : List Json → String
  | [] => ""
  | x :: xs => ", " ++ Json.dumps x ++ Json.dumpsArrTail xs

/-- Remaining object entries, each preceded by `", "`. -/
def Json.dumpsObjTail : List (String × Json) → String
  | [] => ""
  | (k, v) :: kvs => ", " ++ escString k ++ ": " ++ Json.dumps v ++ Json.dumpsObjTail kvs

end

/-- `len(json.dumps(v).encode('utf-8'))`.  With `ensure_ascii=True` the
serialized form is pure ASCII, so the UTF-8 byte length is the character
count. -/
def jsonByteSize (j : Json) : Nat :=
  j.dumps.length

example : Json.dumps (.obj [("message", .str "hi"), ("n", .num 3)]) =
    String.singleton lbrace ++ "\"message\": \"hi\", \"n\": 3" ++ String.singleton rbrace := by
  decide

example : jsonByteSize (.obj [("message", .str "hi")]) = 17 := by decide

/-! ## `json.loads`

A strict recursive-descent decoder mirroring CPython's `json.loads` on the
integer-numbered fragment: the four JSON whitespace characters, `null`,
`true`, `false`, strings with the standard escapes (surrogate pairs
combined), integer numerals without leading zeros, arrays and objects with
comma separators and no trailing commas, later duplicate object keys
overwriting earlier ones in place (as Python dict assignment does).
Numerals with a fraction or exponent, and the non-standard `NaN`/`Infinity`
literals, are outside the model.  Recursion is fuelled; `loads` supplies
fuel exceeding the nesting depth of any input. -/

/-- JSON whitespace (the only characters `json.loads` skips). -/
def jsonWs (c : Char) : Bool :=
  c = ' ' || c = Char.ofNat 9 || c = Char.ofNat 10 || c = Char.ofNat 13

/-- Drop leading JSON whitespace. -/
def skipJsonWs : List Char → List Char
  | c :: cs => if jsonWs c then skipJsonWs cs else c :: cs
  | [] => []

/-- ASCII decimal digit test. -/
def isDigitCh (c : Char) : Bool :=
  48 ≤ c.toNat && c.toNat ≤ 57

/-- Hexadecimal digit value, if any. -/
def hexVal (c : Char) : Option Nat :=
  let n := c.toNat
  if 48 ≤ n && n ≤ 57 then some (n - 48)
  else if 97 ≤ n && n ≤ 102 then some (n - 87)
  else if 65 ≤ n && n ≤ 70 then some (n - 55)
  else none

/-- Parse exactly four hexadecimal digits of a `\u` escape. -/
def parseHex4 : List Char → Option (Nat × List Char)
  | a :: b :: c :: d :: rest =>
    match hexVal a, hexVal b, hexVal c, hexVal d with
    | some x, some y, some z, some w => some (x * 4096 + y * 256 + z * 16 + w, rest)
    | _, _, _, _ => none
  | _ => none

/-- Body of a JSON string literal after the opening quote.  Raw control
characters are rejected (strict mode); `\u` escapes combine valid surrogate
pairs into one scalar. -/
def parseStringBody (fuel : Nat) (acc : List Char) (cs : List Char) :
    Option (String × List Char) :=
  match fuel with
  | 0 => none
  | fuel + 1 =>
    match cs with
    | [] => none
    | c :: rest =>
      if c = '\"' then some (String.mk acc.reverse, rest)
      else if c = '\\' then
        match rest with
        | [] => none
        | e :: rest2 =>
          if e = '\"' then parseStringBody fuel ('\"' :: acc) rest2
          else if e = '\\' then parseStringBody fuel ('\\' :: acc) rest2
          else if e = '/' then parseStringBody fuel ('/' :: acc) rest2
          else if e = 'b' then parseStringBody fuel (Char.ofNat 8 :: acc) rest2
          else if e = 'f' then parseStringBody fuel (Char.ofNat 12 :: acc) rest2
          else if e = 'n' then parseStringBody fuel (Char.ofNat 10 :: acc) rest2
          else if e = 'r' then parseStringBody fuel (Char.ofNat 13 :: acc) rest2
          else if e = 't' then parseStringBody fuel (Char.ofNat 9 :: acc) rest2
          else if e = 'u' then
            match parseHex4 rest2 with
            | none => none
            | some (n, rest3) =>
              if 55296 ≤ n && n ≤ 56319 then
                match rest3 with
                | x :: y :: rest4 =>
                  if x = '\\' && y = 'u' then
                    match parseHex4 rest4 with
                    | some (m, rest5) =>
                      if 56320 ≤ m && m ≤ 57343 then
                        parseStringBody fuel
                          (Char.ofNat (65536 + (n - 55296) * 1024 + (m - 56320)) :: acc) rest5
                      else parseStringBody fuel (Char.ofNat n :: acc) rest3
                    | none => parseStringBody fuel (Char.ofNat n :: acc) rest3
                  else parseStringBody fuel (Char.ofNat n :: acc) rest3
                | _ => parseStringBody fuel (Char.ofNat n :: acc) rest3
              else parseStringBody fuel (Char.ofNat n :: acc) rest3
          else none
      else if c.toNat < 32 then none
      else parseStringBody fuel (c :: acc) rest

/-- Digits of an unsigned decimal numeral. -/
def takeDigits : List Char → (List Char × List Char)
  | c :: cs =>
    if isDigitCh c then
      let (ds, rest) := takeDigits cs
      (c :: ds, rest)
    else ([], c :: cs)
  | [] => ([], [])

/-- Numeric value of a digit list. -/
def digitsToNat (ds : List Char) : Nat :=
  ds.foldl (fun a c => a * 10 + (c.toNat - 48)) 0

/-- Assignment `d[k] = v` on an insertion-ordered dict: overwrite the first
occurrence in place, else append. -/
def objAssign (kvs : List (String × Json)) (k : String) (v : Json) :
    List (String × Json) :=
  match kvs with
  | [] => [(k, v)]
  | (k0, v0) :: rest =>
    if k0 = k then (k0, v) :: rest else (k0, v0) :: objAssign rest k v

mutual

/-- Parse one JSON value starting at `cs` (leading whitespace already
skipped). -/
def parseVal (fuel : Nat) (cs : List Char) : Option (Json × List Char) :=
  match fuel with
  | 0 => none
  | fuel + 1 =>
    match cs with
    | [] => none
    | c :: rest =>
      if c = 'n' then
        match rest with
        | 'u' :: 'l' :: 'l' :: r => some (.null, r)
        | _ => none
      else if c = 't' then
        match rest with
        | 'r' :: 'u' :: 'e' :: r => some (.bool true, r)
        | _ => none
      else if c = 'f' then
        match rest with
        | 'a' :: 'l' :: 's' :: 'e' :: r => some (.bool false, r)
        | _ => none
      else if c = '\"' then
        match parseStringBody (rest.length + 1) [] rest with
        | some (s, r) => some (.str s, r)
        | none => none
      else if c = '-' then
        match parseNum rest with
        | some (n, r) => some (.num (-(n : Int)), r)
        | none => none
      else if isDigitCh c then
        match parseNum (c :: rest) with
        | some (n, r) => some (.num (n : Int), r)
        | none => none
      else if c = '[' then
        match skipJsonWs rest with
        | ']' :: r => some (.arr [], r)
        | r => parseArrItems fuel [] r
      else if c = lbrace then
        match skipJsonWs rest with
        | b :: r =>
          if b = rbrace then some (.obj [], r)
          else parseObjItems fuel [] (b :: r)
        | [] => none
      else none

/-- Integer numeral: `0`, or a nonzero leading digit followed by digits; a
following `.`, `e` or `E` (a float literal) is outside the model and
rejected. -/
def parseNum (cs : List Char) : Option (Nat × List Char) :=
  match takeDigits cs with
  | ([], _) => none
  | (d :: ds, rest) =>
    if d = '0' && ds ≠ [] then none
    else
      match rest with
      | r :: _ => if r = '.' || r = 'e' || r = 'E' then none else some (digitsToNat (d :: ds), rest)
      | [] => some (digitsToNat (d :: ds), rest)

/-- Array elements after `[`, at the start of an element. -/
def parseArrItems (fuel : Nat) (acc : List Json) (cs : List Char) :
    Option (Json × List Char) :=
  match fuel with
  | 0 => none
  | fuel + 1 =>
    match parseVal fuel cs with
    | none => none
    | some (v, rest) =>
      match skipJsonWs rest with
      | ',' :: r => parseArrItems fuel (v :: acc) (skipJsonWs r)
      | ']' :: r => some (.arr (v :: acc).reverse, r)
      | _ => none

/-- Object entries after the opening brace, at the start of a key. -/
def parseObjItems (fuel : Nat) (acc : List (String × Json)) (cs : List Char) :
    Option (Json × List Char) :=
  match fuel with
  | 0 => none
  | fuel + 1 =>
    match cs with
    | c :: rest =>
      if c = '\"' then
        match parseStringBody (rest.length + 1) [] rest with
        | none => none
        | some (k, rest2) =>
          match skipJsonWs rest2 with
          | ':' :: rest3 =>
            match parseVal fuel (skipJsonWs rest3) with
            | none => none
            | some (v, rest4) =>
              match skipJsonWs rest4 with
              | ',' :: r => parseObjItems fuel (objAssign acc k v) (skipJsonWs r)
              | b :: r =>
                if b = rbrace then some (.obj (objAssign acc k v), r) else none
              | [] => none
          | _ => none
      else none
    | [] => none

end

/-- `json.loads(s)`: decode one JSON document with nothing but whitespace
around it. -/
def loads (s : String) : Option Json :=
  match parseVal (s.length + 1) (skipJsonWs s.data) with
  | some (v, rest) => if skipJsonWs rest = [] then some v else none
  | none => none

example : loads "  [1, 2, -3]" = some (.arr [.num 1, .num 2, .num (-3)]) := rfl

example : loads "not json" = none := rfl


/-! ## Configuration (`src/publisher/config.py`, `src/subscriber/config.py`)

Each `Config` class attribute is a function of the process environment
(`os.environ`), modelled as a partial map from variable names to values. -/

/-- The process environment `os.environ`. -/
def PyEnv : Type := String → Option String

namespace PublisherConfig

/-- `Config.MAX_MESSAGE_SIZE` in `src/publisher/config.py`: the literal
constant `256 * 1024`; the source does not consult the environment for this
attribute (unlike `MAX_RETRIES` etc., which use `os.environ.get`). -/
def MAX_MESSAGE_SIZE (_env : PyEnv) : Nat := 256 * 1024

end PublisherConfig

namespace SubscriberConfig

/-- `Config.MAX_MESSAGE_SIZE` in `src/subscriber/config.py`: the literal
constant `256 * 1024`; the source does not consult the environment for this
attribute. -/
def MAX_MESSAGE_SIZE (_env : PyEnv) : Nat := 256 * 1024

end SubscriberConfig

/-! ## Publisher: `validate_input` (`src/publisher/lambda_function.py`)

`validate_input` returns the validated body or raises `ValidationError`;
here `Except String Json` with the error carrying the `ValidationError`
message.  The `json.JSONDecodeError` detail appended to the invalid-JSON
message by the source f-string is elided. -/

/-- The body-extraction step of `validate_input`: if the event has a `body`
field, a string body is `json.loads`-decoded and a non-string body is taken
as is; otherwise the event itself is the body. -/
def decodeBody (event : Json) : Except String Json :=
  if event.member "body" then
    match (event.lookup "body").getD .null with
    | .str s =>
      match loads s with
      | some b => .ok b
      | none => .error "Invalid JSON in request body"
    | b => .ok b
  else .ok event

/-- The string content of a `Json.str` (unused on other constructors). -/
def Json.asStr : Json → String
  | .str s => s
  | _ => ""

/-- `validate_input(event)`: extract the body, require a dict, require a
`message` field, reject a falsy message and a whitespace-only string
message, and reject a body whose serialized size exceeds
`Config.MAX_MESSAGE_SIZE`. -/
def validate_input (env : PyEnv) (event : Json) : Except String Json := do
  let body ← decodeBody event
  if !body.isObj then
    throw "Message body must be a JSON object"
  else
    if !body.member "message" then
      throw "Message field is required"
    else
      let message := body.getD "message" .null
      if !message.pyTruthy || (message.isStr && stripIsEmpty message.asStr) then
        throw "Message cannot be empty"
      else
        let messageSize := jsonByteSize body
        if messageSize > PublisherConfig.MAX_MESSAGE_SIZE env then
          throw ("Message size (" ++ toString messageSize ++ " bytes) exceeds limit (" ++
            toString (PublisherConfig.MAX_MESSAGE_SIZE env) ++ " bytes)")
        else
          pure body

/-! ## Publisher: `publish_message`

The SNS client call is the external transport: attempt `i` of
`sns_client.publish` either returns a response or raises a
`ClientError`/`BotoCoreError`, modelled as `Except String SnsResponse`
indexed by the attempt number.  `publish_message` raises `SNSPublishError`
(the `Except` error, carrying its message) when the topic ARN is unset or
every attempt failed. -/

/-- The SNS publish response (`response['MessageId']`). -/
structure SnsResponse where
  messageId : String
deriving Repr, DecidableEq

/-- The `for attempt in range(max_retries + 1)` loop of `publish_message`,
with `attempt = maxRetries - remaining`: a successful attempt returns its
response; a failed final attempt (`attempt == max_retries`, i.e.
`remaining = 0`) raises `SNSPublishError` wrapping that attempt's
exception; any earlier failure moves to the next attempt. -/
def publishLoop (transport : Nat → Except String SnsResponse) (maxRetries : Nat) :
    Nat → Except String SnsResponse
  | 0 =>
    match transport maxRetries with
    | .ok r => .ok r
    | .error e =>
      .error ("Failed to publish message after " ++ toString (maxRetries + 1) ++
        " attempts: " ++ e)
  | remaining + 1 =>
    match transport (maxRetries - (remaining + 1)) with
    | .ok r => .ok r
    | .error _ => publishLoop transport maxRetries remaining

/-- `publish_message`: raise `SNSPublishError` when `SNS_TOPIC_ARN` is unset
(or empty, since the source tests `if not topic_arn`), else run the retry
loop with `Config.MAX_RETRIES` retries. -/
def publish_message (topicArn : Option String) (maxRetries : Nat)
    (transport : Nat → Except String SnsResponse) : Except String SnsResponse :=
  match topicArn with
  | none => .error "SNS_TOPIC_ARN environment variable not set"
  | some t =>
    if t = "" then .error "SNS_TOPIC_ARN environment variable not set"
    else publishLoop transport maxRetries maxRetries

example :
    publish_message (some "arn:x") 2
      (fun i => if i < 2 then .error "boom" else .ok ⟨"mid"⟩) = .ok ⟨"mid"⟩ := rfl

example :
    publish_message (some "arn:x") 1 (fun _ => .error "boom") =
      .error "Failed to publish message after 2 attempts: boom" := rfl

/-! ## Subscriber (`src/subscriber/lambda_function.py`)

Exceptions are explicit: `MessageProcessingError` (the module's own class)
versus every other exception class (`AttributeError`, `TypeError`, ...,
which the source code can raise through dynamically-typed attribute access).
The `lambda_handler` except clauses dispatch on exactly this distinction.
Exception message detail that the source builds from `str(e)` of a library
exception is elided; the module's own f-string prefixes are kept. -/

/-- A raised Python exception: `MessageProcessingError` or any other class. -/
inductive PyExn where
  | mpe (msg : String)
  | other (msg : String)
deriving Repr, DecidableEq

/-- `str(e)` of an exception. -/
def PyExn.msg : PyExn → String
  | .mpe m => m
  | .other m => m

/-- `d.get(k, default)` on a dynamically-typed receiver: `AttributeError`
when the receiver is not a dict, as CPython raises. -/
def pyGetD (j : Json) (k : String) (d : Json) : Except PyExn Json :=
  match j with
  | .obj kvs => .ok ((kvs.lookup k).getD d)
  | _ => .error (.other "AttributeError: object has no attribute get")

/-- `str(v)` as interpolated into f-string messages.  Container reprs are
approximated by their JSON serialization (no claim depends on those
texts). -/
def pyFmt : Json → String
  | .null => "None"
  | .bool true => "True"
  | .bool false => "False"
  | .num n => toString n
  | .str s => s
  | .arr xs => Json.dumps (.arr xs)
  | .obj kvs => Json.dumps (.obj kvs)

/-- Two-digit lowercase hexadecimal rendering of a byte. -/
def hex2 (n : Nat) : String :=
  String.mk [hexDigit (n / 16 % 16), hexDigit (n % 16)]

/-- Byte `i` of the random source (`os.urandom(16)`), reduced mod 256. -/
def uuidByte (rnd : List Nat) (i : Nat) : Nat :=
  (rnd.getD i 0) % 256

/-- `str(uuid.uuid4())` as a function of the 16 random bytes: RFC 4122
version 4 forces the high nibble of byte 6 to `4` (`(b6 & 0x0f) | 0x40`)
and the top two bits of byte 8 to `10` (`(b8 & 0x3f) | 0x80`); the result
is 32 lowercase hex digits in 8-4-4-4-12 groups. -/
def uuid4_str (rnd : List Nat) : String :=
  let b : Nat → Nat := fun i =>
    if i = 6 then uuidByte rnd 6 % 16 + 64
    else if i = 8 then uuidByte rnd 8 % 64 + 128
    else uuidByte rnd i
  hex2 (b 0) ++ hex2 (b 1) ++ hex2 (b 2) ++ hex2 (b 3) ++ "-" ++
    hex2 (b 4) ++ hex2 (b 5) ++ "-" ++ hex2 (b 6) ++ hex2 (b 7) ++ "-" ++
    hex2 (b 8) ++ hex2 (b 9) ++ "-" ++
    hex2 (b 10) ++ hex2 (b 11) ++ hex2 (b 12) ++ hex2 (b 13) ++ hex2 (b 14) ++ hex2 (b 15)

example : uuid4_str (List.replicate 16 0) = "00000000-0000-4000-8000-000000000000" := by decide

/-- `extract_correlation_id(message_attributes, parsed_message)`: the
`CorrelationId` attribute entry's `Value` first (with a fresh uuid4 as the
`.get` default), else the body's `correlationId` field when the body is a
dict, else a fresh uuid4.  The random bytes `rnd` stand for this call's
`os.urandom` draw. -/
def extract_correlation_id (attrs body : Json) (rnd : List Nat) : Except PyExn Json :=
  if attrs.member "CorrelationId" then
    pyGetD ((attrs.lookup "CorrelationId").getD .null) "Value" (.str (uuid4_str rnd))
  else if body.isObj && body.member "correlationId" then
    .ok (body.getD "correlationId" .null)
  else
    .ok (.str (uuid4_str rnd))

/-- `extract_source(message_attributes, parsed_message)`: the `Source`
attribute entry's `Value` first (default `"unknown"`), else the body's
`source` field when the body is a dict, else `"unknown"`. -/
def extract_source (attrs body : Json) : Except PyExn Json :=
  if attrs.member "Source" then
    pyGetD ((attrs.lookup "Source").getD .null) "Value" (.str "unknown")
  else if body.isObj && body.member "source" then
    .ok (body.getD "source" .null)
  else
    .ok (.str "unknown")

/-- `validate_message_structure(message, message_id)`: raise
`MessageProcessingError` when the parsed message is not a dict, when a
required field (`required_fields = ['data']`) is absent, or when the
serialized size exceeds `Config.MAX_MESSAGE_SIZE`. -/
def validate_message_structure (env : PyEnv) (message messageId : Json) :
    Except PyExn Unit :=
  if !message.isObj then
    .error (.mpe ("Message " ++ pyFmt messageId ++ " must be a JSON object"))
  else if !message.member "data" then
    .error (.mpe ("Message " ++ pyFmt messageId ++ " missing required field: data"))
  else if jsonByteSize message > SubscriberConfig.MAX_MESSAGE_SIZE env then
    .error (.mpe ("Message " ++ pyFmt messageId ++ " size (" ++
      toString (jsonByteSize message) ++ " bytes) exceeds limit"))
  else
    .ok ()

/-- Count of words of `str.split()` with no separator: maximal runs of
non-whitespace characters. -/
def pySplitCountAux : List Char → Bool → Nat
  | [], _ => 0
  | c :: rest, inWord =>
    if pyIsSpace c then pySplitCountAux rest false
    else (if inWord then 0 else 1) + pySplitCountAux rest true

/-- `len(s.split())`. -/
def pySplitLen (s : String) : Nat :=
  pySplitCountAux s.data false

/-- `process_text_message(text_content, correlation_id)`: word and character
counts of the text; a non-string content raises (`str` methods missing), to
be wrapped by `process_message_content`. -/
def process_text_message (textContent _corr : Json) : Except PyExn Json :=
  match textContent with
  | .str s =>
    .ok (.obj [("type", .str "text"), ("wordCount", .num (pySplitLen s)),
      ("charCount", .num s.length), ("processed", .bool true)])
  | _ => .error (.other "AttributeError: object has no attribute split")

/-- `process_order_message(order_data, correlation_id)`: `id` (default
`"unknown"`) and `total` (default `0`) extracted verbatim. -/
def process_order_message (orderData _corr : Json) : Except PyExn Json := do
  let orderId ← pyGetD orderData "id" (.str "unknown")
  let totalAmount ← pyGetD orderData "total" (.num 0)
  pure (.obj [("type", .str "order"), ("orderId", orderId),
    ("totalAmount", totalAmount), ("processed", .bool true)])

/-- `process_event_message(event_data, correlation_id)`: `type` (default
`"unknown"`) and `timestamp` (default: the current time `now`). -/
def process_event_message (eventData _corr : Json) (now : String) : Except PyExn Json := do
  let eventType ← pyGetD eventData "type" (.str "unknown")
  let eventTimestamp ← pyGetD eventData "timestamp" (.str now)
  pure (.obj [("type", .str "event"), ("eventType", eventType),
    ("eventTimestamp", eventTimestamp), ("processed", .bool true)])

/-- `process_generic_message(data, correlation_id)`: only the runtime type
name of `data`. -/
def process_generic_message (data _corr : Json) : Except PyExn Json :=
  .ok (.obj [("type", .str "generic"), ("dataType", .str data.pyTypeName),
    ("processed", .bool true)])

/-- The handler chosen by `process_message_content` for a given `data`
value, in the source's `if`/`elif` order. -/
inductive HandlerChoice where
  | text
  | order
  | event
  | generic
deriving Repr, DecidableEq

/-- The dispatch condition chain of `process_message_content`: first match
wins among `message`, `order`, `event` key presence on a dict `data`, else
generic. -/
def classifyData (data : Json) : HandlerChoice :=
  if data.isObj && data.member "message" then .text
  else if data.isObj && data.member "order" then .order
  else if data.isObj && data.member "event" then .event
  else .generic

/-- The handler call `process_message_content` makes for `data`, as chosen
by its condition chain. -/
def dispatchContent (data corr : Json) (now : String) : Except PyExn Json :=
  match classifyData data with
  | .text => process_text_message (data.getD "message" .null) corr
  | .order => process_order_message (data.getD "order" .null) corr
  | .event => process_event_message (data.getD "event" .null) corr now
  | .generic => process_generic_message data corr

/-- The try-block of `process_message_content`: take `data` (default `{}`),
dispatch, and wrap the handler result as
`{type, processed: true, details, processingTime}`. -/
def process_message_content_body (message corr : Json) (now : String) :
    Except PyExn Json := do
  let data ← pyGetD message "data" (.obj [])
  let result ← dispatchContent data corr now
  let t ← pyGetD result "type" (.str "generic")
  pure (.obj [("type", t), ("processed", .bool true), ("details", result),
    ("processingTime", .str now)])

/-- `process_message_content`: any exception from the try-block is caught
and re-raised as `MessageProcessingError` with the
`Failed to process message content` prefix. -/
def process_message_content (message corr : Json) (now : String) :
    Except PyExn Json :=
  match process_message_content_body message corr now with
  | .ok r => .ok r
  | .error e => .error (.mpe ("Failed to process message content: " ++ e.msg))

/-- `'{}'`, the `sns_data.get('Message', '{}')` default. -/
def emptyObjLiteral : String :=
  String.singleton lbrace ++ String.singleton rbrace

/-- `store_processing_result`: a best-effort external audit write; the
source catches every exception inside the function and returns `None`, so
it cannot influence the result of `process_sns_record`. -/
def store_processing_result : Unit := ()

/-- The parse step of `process_sns_record`: `json.loads(message_body)`
inside `try/except json.JSONDecodeError` — a decode failure raises
`MessageProcessingError`, a non-string body raises `TypeError` (which only
the outer wrapper catches). -/
def parseSnsMessage (messageBody messageId : Json) : Except PyExn Json :=
  match messageBody with
  | .str s =>
    match loads s with
    | some v => pure v
    | none => .error (.mpe ("Invalid JSON in SNS message " ++ pyFmt messageId))
  | _ => .error (.other "TypeError: the JSON object must be str")

/-- The try-block of `process_sns_record`, generic in the content processor
(`pmcF`, which the source instantiates with `process_message_content`):
unwrap the SNS envelope, parse the message JSON, extract correlation id and
source, validate the structure, process the content, store the audit
record, and build the success dict.  `rnd` is this record's `os.urandom`
draw, `now` the wall clock. -/
def process_sns_record_body_with (pmcF : Json → Json → String → Except PyExn Json)
    (env : PyEnv) (record : Json) (rnd : List Nat)
    (now : String) : Except PyExn Json := do
  let snsData ← pyGetD record "Sns" (.obj [])
  let messageId ← pyGetD snsData "MessageId" .null
  let messageBody ← pyGetD snsData "Message" (.str emptyObjLiteral)
  let messageAttributes ← pyGetD snsData "MessageAttributes" (.obj [])
  let parsedMessage ← parseSnsMessage messageBody messageId
  let correlationId ← extract_correlation_id messageAttributes parsedMessage rnd
  let source ← extract_source messageAttributes parsedMessage
  validate_message_structure env parsedMessage messageId
  let processingResult ← pmcF parsedMessage correlationId now
  let _ := store_processing_result
  pure (.obj [("status", .str "success"), ("messageId", messageId),
    ("correlationId", correlationId), ("source", source),
    ("processingResult", processingResult), ("timestamp", .str now)])

/-- `process_sns_record` generic in the content processor:
`except MessageProcessingError: raise` passes a `MessageProcessingError`
through unchanged; `except Exception` wraps every other exception as
`MessageProcessingError` with the `Unexpected error processing SNS record`
prefix. -/
def process_sns_record_with (pmcF : Json → Json → String → Except PyExn Json)
    (env : PyEnv) (record : Json) (rnd : List Nat)
    (now : String) : Except PyExn Json :=
  match process_sns_record_body_with pmcF env record rnd now with
  | .ok r => .ok r
  | .error (.mpe m) => .error (.mpe m)
  | .error (.other m) => .error (.mpe ("Unexpected error processing SNS record: " ++ m))

/-- `process_sns_record`, with the content processor the source calls. -/
def process_sns_record (env : PyEnv) (record : Json) (rnd : List Nat)
    (now : String) : Except PyExn Json :=
  process_sns_record_with process_message_content env record rnd now

/-! ## Subscriber: `lambda_handler`

The loop body of `lambda_handler` appends one result dict per record:
the `process_sns_record` return value on success, a
`{status: failed, error, record_id}` dict on `MessageProcessingError`, a
`{status: error, error, record_id}` dict on any other exception.  An
exception raised inside an except clause itself (the `record.get` chain on
a malformed record) escapes to the function-level handler, which returns
the 500 critical-error shape.  The loop is parametrized over the per-record
processor (the source calls `process_sns_record`), since the except-clause
dispatch is on whatever exception that call raises. -/

/-- One iteration of the record loop: the appended result dict and whether
it counted as successful, or an exception escaping the except clauses. -/
def runRecord (proc : Json → Except PyExn Json) (record : Json) :
    Except PyExn (Json × Bool) :=
  match proc record with
  | .ok result => .ok (result, true)
  | .error (.mpe m) => do
    let sns ← pyGetD record "Sns" (.obj [])
    let recordId ← pyGetD sns "MessageId" (.str "unknown")
    pure (.obj [("status", .str "failed"), ("error", .str m),
      ("record_id", recordId)], false)
  | .error (.other m) => do
    let sns ← pyGetD record "Sns" (.obj [])
    let recordId ← pyGetD sns "MessageId" (.str "unknown")
    pure (.obj [("status", .str "error"), ("error", .str m),
      ("record_id", recordId)], false)

/-- The record loop: results in arrival order with success/failure counts,
or the exception that aborted the iteration. -/
def processLoop (proc : Nat → Json → Except PyExn Json) (i : Nat) :
    List Json → Except PyExn (List Json × Nat × Nat)
  | [] => .ok ([], 0, 0)
  | r :: rs => do
    let (entry, ok) ← runRecord (proc i) r
    let (entries, s, f) ← processLoop proc (i + 1) rs
    pure (entry :: entries, (if ok then 1 else 0) + s, (if ok then 0 else 1) + f)

/-- The `lambda_handler` return value: the batch summary, or the 500
critical-error shape from the function-level except clause. -/
inductive HandlerResponse where
  | batch (statusCode processedRecords successfulRecords failedRecords : Nat)
      (results : List Json) (requestId : String)
  | critical (requestId : String)

/-- `lambda_handler` generic in the per-record processor: run the loop,
then return statusCode 200 when no record failed and 207 otherwise, with
the counts and ordered results; a loop-escaping exception yields the
critical 500 shape. -/
def lambda_handler_with (proc : Nat → Json → Except PyExn Json)
    (records : List Json) (requestId : String) : HandlerResponse :=
  match processLoop proc 0 records with
  | .ok (results, s, f) =>
    .batch (if f = 0 then 200 else 207) results.length s f results requestId
  | .error _ => .critical requestId

/-- `lambda_handler` on `event.get('Records', [])`, with
`proc := process_sns_record`; `rnds i` is the `os.urandom` draw of record
`i`. -/
def lambda_handler (env : PyEnv) (records : List Json) (rnds : Nat → List Nat)
    (now : String) (requestId : String) : HandlerResponse :=
  lambda_handler_with (fun i record => process_sns_record env record (rnds i) now)
    records requestId

/-! ## Lemmas about the publish retry loop -/

/-- While every attempt strictly before the final one fails, the loop walks
down to the final attempt. -/
lemma publishLoop_all_early_fail (t : Nat → Except String SnsResponse) (m : Nat) :
    ∀ remaining, remaining ≤ m →
      (∀ i, m - remaining ≤ i → i < m → ∃ e, t i = .error e) →
      publishLoop t m remaining = publishLoop t m 0 := by
  intro remaining
  induction remaining with
  | zero => intro _ _; rfl
  | succ r ih =>
    intro hle h
    obtain ⟨e, he⟩ := h (m - (r + 1)) le_rfl (by omega)
    simp only [publishLoop, he]
    exact ih (by omega) (fun i h1 h2 => h i (by omega) h2)

/-- The loop raises iff every attempt in its remaining window fails. -/
lemma publishLoop_error_iff (t : Nat → Except String SnsResponse) (m : Nat) :
    ∀ remaining, remaining ≤ m →
      ((∃ msg, publishLoop t m remaining = .error msg) ↔
        (∀ i, m - remaining ≤ i → i ≤ m → ∃ e, t i = .error e)) := by
  intro remaining
  induction remaining with
  | zero =>
    intro _
    constructor
    · intro ⟨msg, hmsg⟩ i h1 h2
      have hi : i = m := by omega
      subst hi
      rcases ht : t i with e | r
      · exact ⟨e, rfl⟩
      · simp only [publishLoop, ht] at hmsg
        exact absurd hmsg (by simp)
    · intro h
      obtain ⟨e, he⟩ := h m (by omega) le_rfl
      simp only [publishLoop, he]
      exact ⟨_, rfl⟩
  | succ r ih =>
    intro hle
    constructor
    · intro ⟨msg, hmsg⟩ i h1 h2
      rcases ht : t (m - (r + 1)) with e | rr
      · by_cases hi : i = m - (r + 1)
        · exact hi ▸ ⟨e, ht⟩
        · simp only [publishLoop, ht] at hmsg
          exact (ih (by omega)).mp ⟨msg, hmsg⟩ i (by omega) h2
      · simp only [publishLoop, ht] at hmsg
        exact absurd hmsg (by simp)
    · intro h
      obtain ⟨e, he⟩ := h (m - (r + 1)) le_rfl (by omega)
      simp only [publishLoop, he]
      exact (ih (by omega)).mpr (fun i h1 h2 => h i (by omega) h2)

/-- C3: `publish_message` raises `SNSPublishError` exactly when the topic
ARN is unset or every one of the `MAX_RETRIES + 1` attempts fails with a
transport exception: with the topic set, a transport failing all attempts
before the final one and succeeding on the final attempt yields that
success without raising; a transport failing every attempt yields
`SNSPublishError` wrapping the final attempt's exception; and an error
outcome is equivalent to all `MAX_RETRIES + 1` attempts failing. -/
theorem claim_C3 (arn : String) (harn : arn ≠ "") (maxRetries : Nat)
    (transport : Nat → Except String SnsResponse) :
    (∀ t2 : Nat → Except String SnsResponse,
      publish_message none maxRetries t2 =
        .error "SNS_TOPIC_ARN environment variable not set")
  ∧ (∀ r, (∀ i, i < maxRetries → ∃ e, transport i = .error e) →
      transport maxRetries = .ok r →
      publish_message (some arn) maxRetries transport = .ok r)
  ∧ (∀ e, (∀ i, i < maxRetries → ∃ e2, transport i = .error e2) →
      transport maxRetries = .error e →
      publish_message (some arn) maxRetries transport =
        .error ("Failed to publish message after " ++ toString (maxRetries + 1) ++
          " attempts: " ++ e))
  ∧ ((∃ msg, publish_message (some arn) maxRetries transport = .error msg) ↔
      (∀ i, i ≤ maxRetries → ∃ e, transport i = .error e)) := by
  refine ⟨fun t2 => rfl, ?_, ?_, ?_⟩
  · intro r hfail hok
    have h := publishLoop_all_early_fail transport maxRetries maxRetries le_rfl
      (fun i _ h2 => hfail i h2)
    simp only [publish_message, if_neg harn, h, publishLoop, hok]
  · intro e hfail herr
    have h := publishLoop_all_early_fail transport maxRetries maxRetries le_rfl
      (fun i _ h2 => hfail i h2)
    simp only [publish_message, if_neg harn, h, publishLoop, herr]
  · have h := publishLoop_error_iff transport maxRetries maxRetries le_rfl
    simp only [publish_message, if_neg harn]
    simpa using h

/-- C3 witness: with the default `MAX_RETRIES = 3`, a transport failing on
attempts 0, 1 and 2 and succeeding on attempt 3 publishes successfully; a
transport failing on every attempt raises the wrapped `SNSPublishError`. -/
theorem claim_C3_witness :
    publish_message (some "arn:aws:sns:topic") 3
        (fun i => if i < 3 then .error "Throttled" else .ok ⟨"mid-1"⟩) =
      .ok ⟨"mid-1"⟩
  ∧ publish_message (some "arn:aws:sns:topic") 3 (fun _ => .error "Throttled") =
      .error "Failed to publish message after 4 attempts: Throttled" := by
  constructor
  · exact (claim_C3 "arn:aws:sns:topic" (by decide) 3
      (fun i => if i < 3 then .error "Throttled" else .ok ⟨"mid-1"⟩)).2.1 ⟨"mid-1"⟩
      (fun i hi => ⟨"Throttled", by interval_cases i <;> rfl⟩) rfl
  · exact (claim_C3 "arn:aws:sns:topic" (by decide) 3
      (fun _ => .error "Throttled")).2.2.1 "Throttled"
      (fun i hi => ⟨"Throttled", rfl⟩) rfl

/-- C7 counterexample: setting every environment variable (in particular any
max-message-size setting) to `"999"` leaves both size ceilings at the
hard-coded `256 * 1024 = 262144`; the constant is not environment-sourced,
so it is not configurable. -/
theorem claim_C7_counterexample :
    PublisherConfig.MAX_MESSAGE_SIZE (fun _ => some "999") = 262144
  ∧ SubscriberConfig.MAX_MESSAGE_SIZE (fun _ => some "999") = 262144
  ∧ (999 : Nat) ≠ 262144 := by
  exact ⟨rfl, rfl, by decide⟩

/-- C7 amended: the maximum message size ceiling used by the publish-side
validator and the receive-side structure check is the fixed constant 262144
bytes on both sides, identical under every environment; it is not
configurable via an environment-level setting. -/
theorem claim_C7 :
    ∀ env env2 : PyEnv,
      PublisherConfig.MAX_MESSAGE_SIZE env = 262144
    ∧ SubscriberConfig.MAX_MESSAGE_SIZE env = 262144
    ∧ PublisherConfig.MAX_MESSAGE_SIZE env = PublisherConfig.MAX_MESSAGE_SIZE env2
    ∧ SubscriberConfig.MAX_MESSAGE_SIZE env = SubscriberConfig.MAX_MESSAGE_SIZE env2 :=
  fun _ _ => ⟨rfl, rfl, rfl, rfl⟩

/-- C2: classification dispatch over the envelope's `data` follows the fixed
first-match-wins precedence `message` → `order` → `event` → generic; a
`data` object containing both `message` and `order` keys goes to the text
handler and never the order handler; and `process_message_content` invokes
exactly the handler this chain chooses. -/
theorem claim_C2 (data corr : Json) (now : String) :
    (classifyData data = .text ↔ data.isObj = true ∧ data.member "message" = true)
  ∧ (classifyData data = .order ↔
      data.isObj = true ∧ data.member "message" = false ∧ data.member "order" = true)
  ∧ (classifyData data = .event ↔
      data.isObj = true ∧ data.member "message" = false ∧ data.member "order" = false ∧
        data.member "event" = true)
  ∧ (classifyData data = .generic ↔
      (data.isObj = false ∨ (data.member "message" = false ∧ data.member "order" = false ∧
        data.member "event" = false)))
  ∧ (data.isObj = true → data.member "message" = true → data.member "order" = true →
      classifyData data = .text ∧ classifyData data ≠ .order)
  ∧ (∀ message, message.isObj = true → message.getD "data" (.obj []) = data →
      process_message_content_body message corr now =
        (dispatchContent data corr now).bind (fun result =>
          (pyGetD result "type" (.str "generic")).bind (fun t =>
            .ok (.obj [("type", t), ("processed", .bool true), ("details", result),
              ("processingTime", .str now)])))) := by
  refine ⟨?_, ?_, ?_, ?_, ?_, ?_⟩
  · simp only [classifyData]
    split_ifs with h1 h2 h3 <;> simp_all
  · simp only [classifyData]
    split_ifs with h1 h2 h3 <;> simp_all
  · simp only [classifyData]
    split_ifs with h1 h2 h3 <;> simp_all
  · simp only [classifyData]
    split_ifs with h1 h2 h3 <;> cases hb : data.isObj <;> simp_all
  · intro h1 h2 h3
    simp only [classifyData, h1, h2, Bool.and_self]
    exact ⟨rfl, by simp⟩
  · intro message hm hd
    cases message with
    | obj kvs =>
      simp only [process_message_content_body, pyGetD]
      have : (kvs.lookup "data").getD (.obj []) = data := hd
      simp only [this]
      rfl
    | null => simp [Json.isObj] at hm
    | bool b => simp [Json.isObj] at hm
    | num n => simp [Json.isObj] at hm
    | str s => simp [Json.isObj] at hm
    | arr xs => simp [Json.isObj] at hm

/-- C2 witness: a `data` object carrying both a `message` and an `order` key
classifies as text, not order. -/
theorem claim_C2_witness :
    classifyData (.obj [("message", .str "x"), ("order", .obj [("id", .str "o-1")])]) =
      .text
  ∧ classifyData (.obj [("message", .str "x"), ("order", .obj [("id", .str "o-1")])]) ≠
      .order :=
  (claim_C2 (.obj [("message", .str "x"), ("order", .obj [("id", .str "o-1")])])
    .null "T").2.2.2.2.1 rfl rfl rfl

/-- C1 counterexample: the payload `{"message": 0}` is a JSON object that
contains a `message` field (neither absent, nor an empty or whitespace-only
string) and serializes well under the ceiling, yet `validate_input` raises
`ValidationError` because `if not message` rejects every falsy value. -/
theorem claim_C1_counterexample :
    (Json.obj [("message", .num 0)]).member "message" = true
  ∧ jsonByteSize (.obj [("message", .num 0)]) ≤ 262144
  ∧ validate_input (fun _ => none) (.obj [("message", .num 0)]) =
      .error "Message cannot be empty" :=
  ⟨rfl, by decide, rfl⟩

/-- C1 amended: `validate_input` succeeds and returns the decoded body
itself exactly when that body is a JSON object whose `message` field is
present, truthy (so additionally excluding the falsy values `null`,
`false`, `0`, the empty array and the empty object, beside the empty
string), not a whitespace-only string, and whose serialization is at most
the 262144-byte ceiling; and it raises `ValidationError` when the body
string is not valid JSON. -/
theorem claim_C1 (env : PyEnv) (event : Json) :
    (∀ e, decodeBody event = .error e → validate_input env event = .error e)
  ∧ (∀ body, decodeBody event = .ok body →
      ((validate_input env event = .ok body ↔
         (body.isObj = true ∧ body.member "message" = true ∧
          (body.getD "message" .null).pyTruthy = true ∧
          ((body.getD "message" .null).isStr = true →
            stripIsEmpty (body.getD "message" .null).asStr = false) ∧
          jsonByteSize body ≤ 262144))
       ∧ (∀ r, validate_input env event = .ok r → r = body))) := by
  constructor
  · intro e he
    unfold validate_input
    rw [he]
    rfl
  · intro body hb
    have hv : validate_input env event =
        (if !body.isObj then .error "Message body must be a JSON object"
         else if !body.member "message" then .error "Message field is required"
         else if !(body.getD "message" .null).pyTruthy ||
             ((body.getD "message" .null).isStr &&
               stripIsEmpty (body.getD "message" .null).asStr) then
           .error "Message cannot be empty"
         else if jsonByteSize body > PublisherConfig.MAX_MESSAGE_SIZE env then
           .error ("Message size (" ++ toString (jsonByteSize body) ++
             " bytes) exceeds limit (" ++
             toString (PublisherConfig.MAX_MESSAGE_SIZE env) ++ " bytes)")
         else .ok body) := by
      unfold validate_input
      rw [hb]
      rfl
    rw [hv]
    have hmax : PublisherConfig.MAX_MESSAGE_SIZE env = 262144 := rfl
    constructor
    · split_ifs with h1 h2 h3 h4
      · simp_all
      · simp_all
      · rw [Bool.or_eq_true, Bool.not_eq_true', Bool.and_eq_true] at h3
        constructor
        · intro h
          exact absurd h (by simp)
        · rintro ⟨-, -, hmsg, hws, -⟩
          rcases h3 with h3 | ⟨h3a, h3b⟩
          · exact absurd h3 (by simp [hmsg])
          · exact absurd (hws h3a) (by simp [h3b])
      · constructor
        · intro h
          exact absurd h (by simp)
        · rintro ⟨-, -, -, -, hsz⟩
          rw [hmax] at h4
          omega
      · constructor
        · intro _
          have h3f : (!(body.getD "message" .null).pyTruthy ||
              ((body.getD "message" .null).isStr &&
                stripIsEmpty (body.getD "message" .null).asStr)) = false := by
            simpa using h3
          rcases Bool.or_eq_false_iff.mp h3f with ⟨ha, hb2⟩
          refine ⟨by simp_all, by simp_all, by simpa using ha, ?_, ?_⟩
          · intro hs
            rcases Bool.and_eq_false_iff.mp hb2 with hh | hh
            · simp [hs] at hh
            · exact hh
          · rw [hmax] at h4
            omega
        · intro _
          rfl
    · intro r hr
      split_ifs at hr
      all_goals simp_all

/-- C1 witness: the payload `{"message": "hello"}`, presented directly as
the event, validates successfully and is returned unchanged. -/
theorem claim_C1_witness :
    validate_input (fun _ => none) (.obj [("message", .str "hello")]) =
      .ok (.obj [("message", .str "hello")]) :=
  ((claim_C1 (fun _ => none) (.obj [("message", .str "hello")])).2
    (.obj [("message", .str "hello")]) rfl).1.mpr
    ⟨rfl, rfl, by decide, fun hs => by decide, by decide⟩

/-! ## Lemmas for reasoning about the `Except`-monadic record pipeline -/

/-- Bind on a success. -/
lemma except_bind_ok {ε α β : Type} (a : α) (f : α → Except ε β) :
    ((Except.ok a : Except ε α) >>= f) = f a := rfl

/-- Bind on a raised exception. -/
lemma except_bind_error {ε α β : Type} (e : ε) (f : α → Except ε β) :
    ((Except.error e : Except ε α) >>= f) = Except.error e := rfl

/-- `pure` is success. -/
lemma except_pure {ε α : Type} (a : α) :
    (pure a : Except ε α) = Except.ok a := rfl

/-- On a dict receiver, `pyGetD` is the total dictionary access. -/
lemma pyGetD_obj {j : Json} (hj : j.isObj = true) (k : String) (d : Json) :
    pyGetD j k d = .ok (j.getD k d) := by
  cases j <;> simp_all [pyGetD, Json.getD, Json.isObj, Json.lookup]

/-- C9: `validate_message_structure` raises `MessageProcessingError` exactly
when the parsed message is not an object, lacks the `data` field, or
serializes beyond the 262144-byte ceiling; every such failure is a
`MessageProcessingError`; and `process_sns_record` runs the check before
content processing — a record whose parsed message fails the check produces
that very error no matter which content processor would have run, so such a
message never reaches handler dispatch. -/
theorem claim_C9 (env : PyEnv) (message messageId : Json) :
    ((∃ e, validate_message_structure env message messageId = .error e) ↔
      (message.isObj = false ∨ message.member "data" = false ∨
        262144 < jsonByteSize message))
  ∧ (∀ e, validate_message_structure env message messageId = .error e →
      ∃ m, e = .mpe m)
  ∧ (∀ record rnd now sns s,
      pyGetD record "Sns" (.obj []) = .ok sns →
      sns.isObj = true →
      sns.getD "Message" (.str emptyObjLiteral) = .str s →
      loads s = some message →
      (∃ c, extract_correlation_id (sns.getD "MessageAttributes" (.obj []))
        message rnd = .ok c) →
      (∃ src, extract_source (sns.getD "MessageAttributes" (.obj [])) message =
        .ok src) →
      ∀ e, validate_message_structure env message (sns.getD "MessageId" .null) =
          .error e →
        ∀ pmcF, process_sns_record_with pmcF env record rnd now = .error e) := by
  have hmax : SubscriberConfig.MAX_MESSAGE_SIZE env = 262144 := rfl
  have hmpe : ∀ mid e, validate_message_structure env message mid = .error e →
      ∃ m, e = .mpe m := by
    intro mid e he
    unfold validate_message_structure at he
    split_ifs at he
    · exact ⟨_, (by simpa using he.symm)⟩
    · exact ⟨_, (by simpa using he.symm)⟩
    · exact ⟨_, (by simpa using he.symm)⟩
  refine ⟨?_, hmpe messageId, ?_⟩
  · constructor
    · rintro ⟨e, he⟩
      unfold validate_message_structure at he
      split_ifs at he with h1 h2 h3
      · left
        simpa using h1
      · right; left
        simpa using h2
      · right; right
        rw [hmax] at h3
        omega
    · intro h
      unfold validate_message_structure
      split_ifs with h1 h2 h3
      · exact ⟨_, rfl⟩
      · exact ⟨_, rfl⟩
      · exact ⟨_, rfl⟩
      · exfalso
        rw [hmax] at h3
        rcases h with h | h | h <;> simp_all
  · intro record rnd now sns s h1 hsns hmsg hloads hcorr hsrcx e hval pmcF
    obtain ⟨c, hc⟩ := hcorr
    obtain ⟨src, hsrc2⟩ := hsrcx
    obtain ⟨m, rfl⟩ := hmpe (sns.getD "MessageId" .null) e hval
    unfold process_sns_record_with process_sns_record_body_with
    rw [h1, except_bind_ok, pyGetD_obj hsns, except_bind_ok, pyGetD_obj hsns,
      except_bind_ok, pyGetD_obj hsns, except_bind_ok, hmsg]
    simp only [parseSnsMessage, hloads, except_pure, except_bind_ok, hc, hsrc2, hval,
      except_bind_error]

/-! ## Lemmas about the subscriber batch loop -/

/-- An `Except` bind that succeeded factors through a successful first
step. -/
lemma bind_eq_ok {ε α β : Type} {step : Except ε α} {rest : α → Except ε β}
    {out : β} (h : step >>= rest = Except.ok out) :
    ∃ mid, step = Except.ok mid ∧ rest mid = Except.ok out := by
  cases step with
  | error e => cases h
  | ok mid => exact ⟨mid, rfl, h⟩

/-- Success test on a per-record outcome. -/
def exOk : Except PyExn Json → Bool
  | .ok _ => true
  | .error _ => false

/-- The result dict the `lambda_handler` loop appends for a given outcome of
the per-record processor: the processor's own dict on success, the
`status: failed` dict on `MessageProcessingError`, the `status: error` dict
on any other exception. -/
def recordEntry (outcome : Except PyExn Json) (record : Json) : Json :=
  match outcome with
  | .ok result => result
  | .error (.mpe m) => .obj [("status", .str "failed"), ("error", .str m),
      ("record_id", (record.getD "Sns" (.obj [])).getD "MessageId" (.str "unknown"))]
  | .error (.other m) => .obj [("status", .str "error"), ("error", .str m),
      ("record_id", (record.getD "Sns" (.obj [])).getD "MessageId" (.str "unknown"))]

/-- A record on which the except-clause chain
`record.get('Sns', {}).get('MessageId', 'unknown')` cannot itself raise:
the record is a dict and its `Sns` value (or the `{}` default) is a dict —
the shape SNS delivery guarantees for inbound records. -/
def exceptPathOk (record : Json) : Bool :=
  record.isObj && (record.getD "Sns" (.obj [])).isObj

/-- Count of successfully processed records of an indexed batch suffix. -/
def countOks (proc : Nat → Json → Except PyExn Json) (i : Nat) : List Json → Nat
  | [] => 0
  | r :: rs => (if exOk (proc i r) then 1 else 0) + countOks proc (i + 1) rs

/-- Count of failed records of an indexed batch suffix. -/
def countFails (proc : Nat → Json → Except PyExn Json) (i : Nat) : List Json → Nat
  | [] => 0
  | r :: rs => (if exOk (proc i r) then 0 else 1) + countFails proc (i + 1) rs

/-- Every record is either a success or a failure. -/
lemma countOks_add_countFails (proc : Nat → Json → Except PyExn Json) :
    ∀ (records : List Json) (i : Nat),
      countOks proc i records + countFails proc i records = records.length := by
  intro records
  induction records with
  | nil => intro i; rfl
  | cons r rs ih =>
    intro i
    simp only [countOks, countFails, List.length_cons]
    have := ih (i + 1)
    by_cases h : exOk (proc i r) <;> simp [h] <;> omega

/-- On an SNS-shaped record the loop body never escapes its except clauses:
it appends exactly the `recordEntry` of the processor's outcome. -/
lemma runRecord_shaped (p : Json → Except PyExn Json) (r : Json)
    (h : exceptPathOk r = true) :
    runRecord p r = .ok (recordEntry (p r) r, exOk (p r)) := by
  unfold exceptPathOk at h
  rw [Bool.and_eq_true] at h
  obtain ⟨h1, h2⟩ := h
  rcases hp : p r with e | a
  · cases e with
    | mpe m =>
      simp only [runRecord, hp, recordEntry, exOk]
      rw [pyGetD_obj h1, except_bind_ok, pyGetD_obj h2, except_bind_ok]
      rfl
    | other m =>
      simp only [runRecord, hp, recordEntry, exOk]
      rw [pyGetD_obj h1, except_bind_ok, pyGetD_obj h2, except_bind_ok]
      rfl
  · simp [runRecord, hp, recordEntry, exOk]

/-- On an SNS-shaped batch the loop never aborts: it returns one entry per
record, in arrival order, with the success and failure counts. -/
lemma processLoop_shaped (proc : Nat → Json → Except PyExn Json) :
    ∀ (records : List Json) (i : Nat),
      (∀ r ∈ records, exceptPathOk r = true) →
      processLoop proc i records =
        .ok ((List.range records.length).map
              (fun k => recordEntry (proc (i + k) (records.getD k .null))
                (records.getD k .null)),
            countOks proc i records, countFails proc i records) := by
  intro records
  induction records with
  | nil => intro i _; rfl
  | cons r rs ih =>
    intro i h
    have hr := h r (by simp)
    simp only [processLoop, runRecord_shaped _ _ hr, except_bind_ok]
    rw [ih (i + 1) (fun x hx => h x (by simp [hx]))]
    simp only [except_bind_ok, except_pure]
    simp only [List.length_cons, List.range_succ_eq_map, List.map_cons, List.map_map,
      countOks, countFails]
    refine congrArg _ ?_
    refine congrArg (fun l => (_ :: l, _, _)) ?_
    refine List.map_congr_left ?_
    intro k _
    simp only [Function.comp_def, List.getD_cons_succ]
    have : i + (k + 1) = i + 1 + k := by omega
    rw [Nat.succ_eq_add_one, this]

/-- The success dict built by `process_sns_record` always carries the six
fixed keys, with `status` set to `success`. -/
lemma process_sns_record_ok_shape (pmcF : Json → Json → String → Except PyExn Json)
    (env : PyEnv) (record : Json) (rnd : List Nat) (now : String) (result : Json)
    (h : process_sns_record_with pmcF env record rnd now = .ok result) :
    result.getD "status" .null = .str "success" ∧
    result.member "messageId" = true ∧ result.member "correlationId" = true ∧
    result.member "source" = true ∧ result.member "processingResult" = true ∧
    result.member "timestamp" = true := by
  have hbody : process_sns_record_body_with pmcF env record rnd now = .ok result := by
    unfold process_sns_record_with at h
    rcases hb : process_sns_record_body_with pmcF env record rnd now with e | a
    · rw [hb] at h
      cases e <;> simp at h
    · rw [hb] at h
      have ha : a = result := by injection h
      rw [ha]
  unfold process_sns_record_body_with at hbody
  obtain ⟨sns, h1, hbody⟩ := bind_eq_ok hbody
  obtain ⟨mid, h2, hbody⟩ := bind_eq_ok hbody
  obtain ⟨mb, h3, hbody⟩ := bind_eq_ok hbody
  obtain ⟨attrs, h4, hbody⟩ := bind_eq_ok hbody
  obtain ⟨parsed, h5, hbody⟩ := bind_eq_ok hbody
  obtain ⟨corr, h6, hbody⟩ := bind_eq_ok hbody
  obtain ⟨src, h7, hbody⟩ := bind_eq_ok hbody
  obtain ⟨u, h8, hbody⟩ := bind_eq_ok hbody
  obtain ⟨pr, h9, hbody⟩ := bind_eq_ok hbody
  have hres : Json.obj [("status", .str "success"), ("messageId", mid),
      ("correlationId", corr), ("source", src), ("processingResult", pr),
      ("timestamp", .str now)] = result := by
    injection hbody
  rw [← hres]
  exact ⟨rfl, rfl, rfl, rfl, rfl, rfl⟩

/-- `process_sns_record` re-raises everything as `MessageProcessingError`:
its outcome is never another exception class. -/
lemma process_sns_record_never_other (env : PyEnv) (record : Json) (rnd : List Nat)
    (now : String) (m : String) :
    process_sns_record env record rnd now ≠ .error (.other m) := by
  intro h
  unfold process_sns_record process_sns_record_with at h
  rcases hb : process_sns_record_body_with process_message_content env record rnd now
    with e | a
  · rw [hb] at h
    cases e <;> simp at h
  · rw [hb] at h
    simp at h

/-- The per-record processor of `lambda_handler`, as the source instantiates
it: record `i` is processed by `process_sns_record` with that record's
`os.urandom` draw. -/
def snsProc (env : PyEnv) (rnds : Nat → List Nat) (now : String) :
    Nat → Json → Except PyExn Json :=
  fun i record => process_sns_record env record (rnds i) now

/-- A failure anywhere in the batch makes the failure count positive. -/
lemma countFails_pos (proc : Nat → Json → Except PyExn Json) :
    ∀ (records : List Json) (i k : Nat), k < records.length →
      exOk (proc (i + k) (records.getD k .null)) = false →
      countFails proc i records ≠ 0 := by
  intro records
  induction records with
  | nil =>
    intro i k hk
    simp at hk
  | cons r rs ih =>
    intro i k hk hx
    cases k with
    | zero =>
      simp only [List.getD_cons_zero, Nat.add_zero] at hx
      simp [countFails, hx]
    | succ k2 =>
      simp only [List.getD_cons_succ] at hx
      have : i + (k2 + 1) = i + 1 + k2 := by omega
      rw [this] at hx
      have hne := ih (i + 1) k2 (by simpa using hk) hx
      simp only [countFails]
      omega

/-- C4: on an SNS-shaped inbound batch the receive handler attempts every
record independently (the loop never aborts), returns exactly one result
per record in arrival order — entry `k` is a function of record `k` alone —
reports `processedRecords = len(records)`, and returns statusCode 200 when
the failed-record count is zero and 207 otherwise; successes and failures
partition the batch. -/
theorem claim_C4 (env : PyEnv) (rnds : Nat → List Nat) (now requestId : String)
    (records : List Json) (hw : ∀ r ∈ records, exceptPathOk r = true) :
    lambda_handler env records rnds now requestId =
      .batch (if countFails (snsProc env rnds now) 0 records = 0 then 200 else 207)
        records.length
        (countOks (snsProc env rnds now) 0 records)
        (countFails (snsProc env rnds now) 0 records)
        ((List.range records.length).map (fun k =>
          recordEntry (snsProc env rnds now k (records.getD k .null))
            (records.getD k .null)))
        requestId
    ∧ countOks (snsProc env rnds now) 0 records +
        countFails (snsProc env rnds now) 0 records = records.length := by
  constructor
  · show lambda_handler_with (snsProc env rnds now) records requestId = _
    unfold lambda_handler_with
    rw [processLoop_shaped _ records 0 hw]
    simp
  · exact countOks_add_countFails _ records 0

/-- C5: the per-record outcome status is decided by the raised exception
class — `failed` on `MessageProcessingError`, `error` (a distinct value) on
any other exception, `success` on a normal return of `process_sns_record` —
and a record with an `error`-class outcome still leaves the rest of the
batch processed, with a nonzero failure count forcing statusCode 207. -/
theorem claim_C5 (proc : Nat → Json → Except PyExn Json) (records : List Json)
    (requestId : String) (hw : ∀ r ∈ records, exceptPathOk r = true) :
    (∀ m record, (recordEntry (.error (.mpe m)) record).getD "status" .null =
      .str "failed")
  ∧ (∀ m record, (recordEntry (.error (.other m)) record).getD "status" .null =
      .str "error")
  ∧ Json.str "failed" ≠ Json.str "error"
  ∧ (∀ (env : PyEnv) record rnd now result,
      process_sns_record env record rnd now = .ok result →
      result.getD "status" .null = .str "success")
  ∧ (lambda_handler_with proc records requestId =
      .batch (if countFails proc 0 records = 0 then 200 else 207) records.length
        (countOks proc 0 records) (countFails proc 0 records)
        ((List.range records.length).map (fun k =>
          recordEntry (proc k (records.getD k .null)) (records.getD k .null)))
        requestId)
  ∧ (∀ k m, k < records.length → proc k (records.getD k .null) = .error (.other m) →
      countFails proc 0 records ≠ 0) := by
  refine ⟨fun m record => rfl, fun m record => rfl, by simp, ?_, ?_, ?_⟩
  · intro env record rnd now result hok
    exact (process_sns_record_ok_shape process_message_content env record rnd now
      result hok).1
  · unfold lambda_handler_with
    rw [processLoop_shaped _ records 0 hw]
    simp
  · intro k m hk hp
    refine countFails_pos proc records 0 k hk ?_
    rw [Nat.zero_add, hp]
    rfl

/-- C10 (implicit): `process_sns_record` only ever raises
`MessageProcessingError` — every other exception inside it is wrapped — so
on an SNS-shaped batch the handler's `error` status branch is unreachable
and every per-record failure surfaces with status `failed`. -/
theorem claim_C10 (env : PyEnv) (now : String) :
    (∀ (record : Json) (rnd : List Nat) (m : String),
      process_sns_record env record rnd now ≠ .error (.other m))
  ∧ (∀ (records : List Json) (rnds : Nat → List Nat) (requestId : String)
        (code p s f : Nat) (results : List Json),
      (∀ r ∈ records, exceptPathOk r = true) →
      lambda_handler env records rnds now requestId =
        .batch code p s f results requestId →
      ∀ entry ∈ results, entry.getD "status" .null ≠ .str "error") := by
  constructor
  · intro record rnd m
    exact process_sns_record_never_other env record rnd now m
  · intro records rnds requestId code p s f results hw hl entry hentry
    have hl2 : lambda_handler env records rnds now requestId =
        .batch (if countFails (snsProc env rnds now) 0 records = 0 then 200 else 207)
          ((List.range records.length).map (fun k =>
            recordEntry (snsProc env rnds now k (records.getD k .null))
              (records.getD k .null))).length
          (countOks (snsProc env rnds now) 0 records)
          (countFails (snsProc env rnds now) 0 records)
          ((List.range records.length).map (fun k =>
            recordEntry (snsProc env rnds now k (records.getD k .null))
              (records.getD k .null)))
          requestId := by
      show lambda_handler_with (snsProc env rnds now) records requestId = _
      unfold lambda_handler_with
      rw [processLoop_shaped _ records 0 hw]
      simp
    rw [hl] at hl2
    have hres : results = (List.range records.length).map (fun k =>
        recordEntry (snsProc env rnds now k (records.getD k .null))
          (records.getD k .null)) := by
      cases hl2
      rfl
    rw [hres] at hentry
    obtain ⟨k, hk, hke⟩ := List.mem_map.mp hentry
    rcases ho : snsProc env rnds now k (records.getD k .null) with e | a
    · cases e with
      | mpe m2 =>
        rw [ho] at hke
        rw [← hke]
        simp [recordEntry, Json.getD, Json.lookup]
      | other m2 =>
        exact absurd ho (process_sns_record_never_other env (records.getD k .null)
          (rnds k) now m2)
    · rw [ho] at hke
      have hshape := process_sns_record_ok_shape process_message_content env
        (records.getD k .null) (rnds k) now a ho
      rw [← hke]
      simp only [recordEntry]
      rw [hshape.1]
      simp

/-! ## Concrete sample inputs for witnesses and counterexamples -/

/-- An environment with nothing set. -/
def sampleEnv : PyEnv := fun _ => none

/-- `str(uuid.uuid4())` of the all-zero random draw. -/
def zeroUuid : String := "00000000-0000-4000-8000-000000000000"

/-- An SNS record whose message parses and validates: body `\x7b"data": 1\x7d`. -/
def sampleGoodRecord : Json :=
  .obj [("Sns", .obj [("MessageId", .str "m1"),
    ("Message", .str "\x7b\"data\": 1\x7d")])]

/-- An SNS record whose message lacks the `data` field: body `\x7b"x": 1\x7d`. -/
def sampleBadRecord : Json :=
  .obj [("Sns", .obj [("MessageId", .str "m2"),
    ("Message", .str "\x7b\"x\": 1\x7d")])]

/-- The success result entry `process_sns_record` builds for
`sampleGoodRecord` under the zero draw at time `"T"`. -/
def sampleGoodEntry : Json :=
  .obj [("status", .str "success"), ("messageId", .str "m1"),
    ("correlationId", .str zeroUuid), ("source", .str "unknown"),
    ("processingResult", .obj [("type", .str "generic"), ("processed", .bool true),
      ("details", .obj [("type", .str "generic"), ("dataType", .str "int"),
        ("processed", .bool true)]),
      ("processingTime", .str "T")]),
    ("timestamp", .str "T")]

/-- The failure result entry the handler loop builds for `sampleBadRecord`. -/
def sampleBadEntry : Json :=
  .obj [("status", .str "failed"),
    ("error", .str "Message m2 missing required field: data"),
    ("record_id", .str "m2")]

example : process_sns_record sampleEnv sampleGoodRecord [] "T" = .ok sampleGoodEntry := rfl

example : process_sns_record sampleEnv sampleBadRecord [] "T" =
    .error (.mpe "Message m2 missing required field: data") := rfl

/-- C4 witness: the 2-record batch of one passing record and one record
whose envelope lacks `data` yields successfulRecords 1, failedRecords 1
and statusCode 207, with one result per record in order. -/
theorem claim_C4_witness :
    lambda_handler sampleEnv [sampleGoodRecord, sampleBadRecord] (fun _ => []) "T"
        "req-1" =
      .batch 207 2 1 1 [sampleGoodEntry, sampleBadEntry] "req-1" := by
  have h := (claim_C4 sampleEnv (fun _ => []) "T" "req-1"
    [sampleGoodRecord, sampleBadRecord] ?_).1
  · exact h.trans rfl
  · intro r hr
    cases hr with
    | head => rfl
    | tail _ h2 =>
      cases h2 with
      | head => rfl
      | tail _ h3 => cases h3

/-- C5 witness: a per-record processor raising a non-`MessageProcessingError`
exception gives every affected record the distinct `error` status, the
batch continues through both records, and the statusCode is 207. -/
theorem claim_C5_witness :
    lambda_handler_with (fun _ _ => .error (.other "boom"))
        [sampleGoodRecord, sampleBadRecord] "req-2" =
      .batch 207 2 0 2
        [.obj [("status", .str "error"), ("error", .str "boom"),
           ("record_id", .str "m1")],
         .obj [("status", .str "error"), ("error", .str "boom"),
           ("record_id", .str "m2")]]
        "req-2" := by
  have h := (claim_C5 (fun _ _ => .error (.other "boom"))
    [sampleGoodRecord, sampleBadRecord] "req-2" ?_).2.2.2.2.1
  · exact h.trans rfl
  · intro r hr
    cases hr with
    | head => rfl
    | tail _ h2 =>
      cases h2 with
      | head => rfl
      | tail _ h3 => cases h3

/-- C9 witness: a record whose message is `\x7b"x": 1\x7d` (no `data` field) is
rejected by the structure check inside `process_sns_record` with the
`missing required field` error, before any content dispatch. -/
theorem claim_C9_witness :
    process_sns_record sampleEnv sampleBadRecord [] "T" =
      .error (.mpe "Message m2 missing required field: data") :=
  (claim_C9 sampleEnv (.obj [("x", .num 1)]) .null).2.2 sampleBadRecord [] "T"
    (.obj [("MessageId", .str "m2"), ("Message", .str "\x7b\"x\": 1\x7d")])
    "\x7b\"x\": 1\x7d" rfl rfl rfl rfl
    ⟨.str zeroUuid, rfl⟩ ⟨.str "unknown", rfl⟩
    (.mpe "Message m2 missing required field: data") rfl process_message_content

/-- C10 witness: a record whose `Sns` value is not a dict makes the inner
access raise `AttributeError`, yet `process_sns_record` surfaces it as
`MessageProcessingError`, never as an `other`-class exception; and in a
1-record batch the failed entry's status is `failed`, not `error`. -/
theorem claim_C10_witness :
    (process_sns_record sampleEnv (.obj [("Sns", .num 5)]) [] "T" ≠
      .error (.other "AttributeError: object has no attribute get"))
  ∧ sampleBadEntry.getD "status" .null ≠ .str "error" := by
  constructor
  · exact (claim_C10 sampleEnv "T").1 (.obj [("Sns", .num 5)]) [] _
  · refine (claim_C10 sampleEnv "T").2 [sampleBadRecord] (fun _ => []) "req-3"
      207 1 0 1 [sampleBadEntry] ?_ rfl sampleBadEntry ?_
    · intro r hr
      cases hr with
      | head => rfl
      | tail _ h2 => cases h2
    · exact List.mem_singleton.mpr rfl

/-- C8 amended: on an SNS-shaped batch, every per-record result carries a
`status` drawn from success/failed/error, but the key sets differ by
outcome: a success result carries `messageId`, `correlationId`, `source`,
the classified `processingResult` and `timestamp`, while a failed or error
result carries only the error text and a `record_id` — not `messageId`,
`correlationId` or a type. -/
theorem claim_C8 (env : PyEnv) (rnds : Nat → List Nat) (now requestId : String)
    (records : List Json) (hw : ∀ r ∈ records, exceptPathOk r = true)
    (code p s f : Nat) (results : List Json)
    (h : lambda_handler env records rnds now requestId =
      .batch code p s f results requestId) :
    ∀ entry ∈ results,
      (entry.getD "status" .null = .str "success" ∧
        entry.member "messageId" = true ∧ entry.member "correlationId" = true ∧
        entry.member "source" = true ∧ entry.member "processingResult" = true ∧
        entry.member "timestamp" = true)
    ∨ ((entry.getD "status" .null = .str "failed" ∨
         entry.getD "status" .null = .str "error") ∧
        entry.member "error" = true ∧ entry.member "record_id" = true) := by
  intro entry hentry
  have hl2 : lambda_handler env records rnds now requestId =
      .batch (if countFails (snsProc env rnds now) 0 records = 0 then 200 else 207)
        ((List.range records.length).map (fun k =>
          recordEntry (snsProc env rnds now k (records.getD k .null))
            (records.getD k .null))).length
        (countOks (snsProc env rnds now) 0 records)
        (countFails (snsProc env rnds now) 0 records)
        ((List.range records.length).map (fun k =>
          recordEntry (snsProc env rnds now k (records.getD k .null))
            (records.getD k .null)))
        requestId := by
    show lambda_handler_with (snsProc env rnds now) records requestId = _
    unfold lambda_handler_with
    rw [processLoop_shaped _ records 0 hw]
    simp
  rw [h] at hl2
  have hres : results = (List.range records.length).map (fun k =>
      recordEntry (snsProc env rnds now k (records.getD k .null))
        (records.getD k .null)) := by
    cases hl2
    rfl
  rw [hres] at hentry
  obtain ⟨k, hk, hke⟩ := List.mem_map.mp hentry
  rcases ho : snsProc env rnds now k (records.getD k .null) with e | a
  · cases e with
    | mpe m2 =>
      rw [ho] at hke
      right
      rw [← hke]
      exact ⟨Or.inl rfl, rfl, rfl⟩
    | other m2 =>
      rw [ho] at hke
      right
      rw [← hke]
      exact ⟨Or.inr rfl, rfl, rfl⟩
  · rw [ho] at hke
    left
    rw [← hke]
    exact process_sns_record_ok_shape process_message_content env
      (records.getD k .null) (rnds k) now a ho

/-- C8 counterexample: in a 1-record batch whose record fails the structure
check, the per-record result is `\x7bstatus: failed, error, record_id\x7d` — it
carries neither `messageId` nor `correlationId` nor a classified type,
contradicting the claim that every ProcessingResult carries them. -/
theorem claim_C8_counterexample :
    lambda_handler sampleEnv [sampleBadRecord] (fun _ => []) "T" "req-4" =
      .batch 207 1 0 1 [sampleBadEntry] "req-4"
  ∧ sampleBadEntry.member "correlationId" = false
  ∧ sampleBadEntry.member "messageId" = false
  ∧ sampleBadEntry.member "type" = false
  ∧ sampleBadEntry.getD "status" .null = .str "failed" :=
  ⟨rfl, rfl, rfl, rfl, rfl⟩

/-- C8 witness: the success entry of a passing 1-record batch carries all
six fields of the success shape. -/
theorem claim_C8_witness :
    sampleGoodEntry.getD "status" .null = .str "success" ∧
    sampleGoodEntry.member "messageId" = true ∧
    sampleGoodEntry.member "correlationId" = true ∧
    sampleGoodEntry.member "source" = true ∧
    sampleGoodEntry.member "processingResult" = true ∧
    sampleGoodEntry.member "timestamp" = true := by
  have h := claim_C8 sampleEnv (fun _ => []) "T" "req-5" [sampleGoodRecord] ?_
    200 1 1 0 [sampleGoodEntry] rfl sampleGoodEntry (List.mem_singleton.mpr rfl)
  · rcases h with h | ⟨hst, -, -⟩
    · exact h
    · exfalso
      have hsucc : sampleGoodEntry.getD "status" .null = .str "success" := rfl
      rcases hst with hst | hst <;>
        · rw [hsucc] at hst
          injection hst with h2
          exact absurd h2 (by decide)
  · intro r hr
    cases hr with
    | head => rfl
    | tail _ h2 => cases h2

/-! ## The shape of generated uuid4 identifiers -/

/-- Lowercase hexadecimal digits. -/
def hexChars : List Char :=
  "0123456789abcdef".data

/-- `hexDigit` of a reduced value is a hexadecimal character. -/
lemma hexDigit_mem_hexChars (m : Nat) : hexDigit (m % 16) ∈ hexChars := by
  have h : m % 16 < 16 := Nat.mod_lt _ (by norm_num)
  interval_cases hm : (m % 16) <;> decide

/-- The characters of a rendered uuid4: two hex digits per byte, dashes at
positions 8, 13, 18 and 23. -/
lemma uuid4_str_data (rnd : List Nat) :
    (uuid4_str rnd).data =
      [hexDigit (uuidByte rnd 0 / 16 % 16), hexDigit (uuidByte rnd 0 % 16),
       hexDigit (uuidByte rnd 1 / 16 % 16), hexDigit (uuidByte rnd 1 % 16),
       hexDigit (uuidByte rnd 2 / 16 % 16), hexDigit (uuidByte rnd 2 % 16),
       hexDigit (uuidByte rnd 3 / 16 % 16), hexDigit (uuidByte rnd 3 % 16),
       '-',
       hexDigit (uuidByte rnd 4 / 16 % 16), hexDigit (uuidByte rnd 4 % 16),
       hexDigit (uuidByte rnd 5 / 16 % 16), hexDigit (uuidByte rnd 5 % 16),
       '-',
       hexDigit ((uuidByte rnd 6 % 16 + 64) / 16 % 16),
       hexDigit ((uuidByte rnd 6 % 16 + 64) % 16),
       hexDigit (uuidByte rnd 7 / 16 % 16), hexDigit (uuidByte rnd 7 % 16),
       '-',
       hexDigit ((uuidByte rnd 8 % 64 + 128) / 16 % 16),
       hexDigit ((uuidByte rnd 8 % 64 + 128) % 16),
       hexDigit (uuidByte rnd 9 / 16 % 16), hexDigit (uuidByte rnd 9 % 16),
       '-',
       hexDigit (uuidByte rnd 10 / 16 % 16), hexDigit (uuidByte rnd 10 % 16),
       hexDigit (uuidByte rnd 11 / 16 % 16), hexDigit (uuidByte rnd 11 % 16),
       hexDigit (uuidByte rnd 12 / 16 % 16), hexDigit (uuidByte rnd 12 % 16),
       hexDigit (uuidByte rnd 13 / 16 % 16), hexDigit (uuidByte rnd 13 % 16),
       hexDigit (uuidByte rnd 14 / 16 % 16), hexDigit (uuidByte rnd 14 % 16),
       hexDigit (uuidByte rnd 15 / 16 % 16), hexDigit (uuidByte rnd 15 % 16)] := by
  show (String.mk _).data = _
  simp only [uuid4_str]
  norm_num

/-- On a dict entry, `pyGetD` with a present key ignores the default. -/
lemma pyGetD_of_lookup {entry v : Json} (k : String)
    (hv : entry.lookup k = some v) (d : Json) : pyGetD entry k d = .ok v := by
  cases entry <;> simp_all [Json.lookup, pyGetD]

/-- C6 amended: `extract_correlation_id` is deterministic (independent of
the random draw) whenever the `CorrelationId` attribute entry carries a
`Value`, or when `CorrelationId` is absent from the attribute bag and the
body carries a `correlationId`; it generates a fresh identifier — a
function of the random draw alone, 36 characters in uuid4 format with the
version digit `4`, never empty — when the id is absent from both sources,
and also (against the claim) when the attribute bag has a `CorrelationId`
entry without a `Value` field, even if the body carries an id. -/
theorem claim_C6 (attrs body : Json) (rnd rnd2 : List Nat) :
    (∀ entry v, attrs.lookup "CorrelationId" = some entry →
      entry.lookup "Value" = some v →
      extract_correlation_id attrs body rnd = .ok v ∧
      extract_correlation_id attrs body rnd = extract_correlation_id attrs body rnd2)
  ∧ (attrs.member "CorrelationId" = false → ∀ v,
      body.lookup "correlationId" = some v → body.isObj = true →
      extract_correlation_id attrs body rnd = .ok v ∧
      extract_correlation_id attrs body rnd = extract_correlation_id attrs body rnd2)
  ∧ (attrs.member "CorrelationId" = false →
      (body.isObj = false ∨ body.member "correlationId" = false) →
      extract_correlation_id attrs body rnd = .ok (.str (uuid4_str rnd)))
  ∧ (∀ entry, attrs.lookup "CorrelationId" = some entry → entry.isObj = true →
      entry.member "Value" = false →
      extract_correlation_id attrs body rnd = .ok (.str (uuid4_str rnd)))
  ∧ ((uuid4_str rnd).length = 36 ∧ uuid4_str rnd ≠ "" ∧
      (uuid4_str rnd).data.getD 8 ' ' = '-' ∧
      (uuid4_str rnd).data.getD 13 ' ' = '-' ∧
      (uuid4_str rnd).data.getD 18 ' ' = '-' ∧
      (uuid4_str rnd).data.getD 23 ' ' = '-' ∧
      (uuid4_str rnd).data.getD 14 ' ' = '4' ∧
      (∀ i, i < 36 → i ≠ 8 → i ≠ 13 → i ≠ 18 → i ≠ 23 →
        (uuid4_str rnd).data.getD i ' ' ∈ hexChars)) := by
  refine ⟨?_, ?_, ?_, ?_, ?_⟩
  · intro entry v hlook hv
    have hmem : attrs.member "CorrelationId" = true := by
      simp [Json.member, hlook]
    have key : ∀ r : List Nat, extract_correlation_id attrs body r = .ok v := by
      intro r
      unfold extract_correlation_id
      rw [hmem, if_pos rfl, hlook]
      exact pyGetD_of_lookup "Value" hv _
    exact ⟨key rnd, (key rnd).trans (key rnd2).symm⟩
  · intro hmem v hbl hobj
    have key : ∀ r : List Nat, extract_correlation_id attrs body r = .ok v := by
      intro r
      unfold extract_correlation_id
      rw [hmem]
      have hbm : body.member "correlationId" = true := by
        simp [Json.member, hbl]
      simp [hobj, hbm, Json.getD, hbl]
    exact ⟨key rnd, (key rnd).trans (key rnd2).symm⟩
  · intro hmem hc
    unfold extract_correlation_id
    rw [hmem]
    rcases hc with hc | hc <;> simp [hc]
  · intro entry hlook hobj hnv
    have hmem : attrs.member "CorrelationId" = true := by
      simp [Json.member, hlook]
    unfold extract_correlation_id
    rw [hmem, if_pos rfl, hlook]
    cases entry with
    | obj kvs =>
      have : kvs.lookup "Value" = none := by
        simpa [Json.member, Json.lookup, Option.isSome_iff_exists] using hnv
      simp [pyGetD, this]
    | null => simp [Json.isObj] at hobj
    | bool b => simp [Json.isObj] at hobj
    | num n => simp [Json.isObj] at hobj
    | str s => simp [Json.isObj] at hobj
    | arr xs => simp [Json.isObj] at hobj
  · have hdata := uuid4_str_data rnd
    have hlen : (uuid4_str rnd).length = 36 := by
      rw [show (uuid4_str rnd).length = (uuid4_str rnd).data.length from rfl, hdata]
      rfl
    refine ⟨hlen, ?_, ?_, ?_, ?_, ?_, ?_, ?_⟩
    · intro h
      rw [h] at hlen
      exact absurd hlen (by decide)
    · rw [hdata]
      rfl
    · rw [hdata]
      rfl
    · rw [hdata]
      rfl
    · rw [hdata]
      rfl
    · rw [hdata]
      have h6 : (uuidByte rnd 6 % 16 + 64) / 16 % 16 = 4 := by omega
      show hexDigit ((uuidByte rnd 6 % 16 + 64) / 16 % 16) = '4'
      rw [h6]
      decide
    · intro i h1 h2 h3 h4 h5
      rw [hdata]
      interval_cases i <;>
        first
        | exact hexDigit_mem_hexChars _
        | omega

/-- C6 counterexample: with an attribute bag whose `CorrelationId` entry
has no `Value` field and a body that does carry `correlationId: "abc"`,
`extract_correlation_id` ignores the body and generates a fresh random
identifier — two calls with identical attributes/body but different random
draws return different values, and neither is the body's id, refuting both
the idempotence and the attribute-then-body fallback as claimed. -/
theorem claim_C6_counterexample :
    extract_correlation_id (.obj [("CorrelationId", .obj [])])
        (.obj [("correlationId", .str "abc")]) (List.replicate 16 0) =
      .ok (.str "00000000-0000-4000-8000-000000000000")
  ∧ extract_correlation_id (.obj [("CorrelationId", .obj [])])
        (.obj [("correlationId", .str "abc")]) (List.replicate 16 255) =
      .ok (.str "ffffffff-ffff-4fff-bfff-ffffffffffff")
  ∧ ("00000000-0000-4000-8000-000000000000" : String) ≠
      "ffffffff-ffff-4fff-bfff-ffffffffffff"
  ∧ ("00000000-0000-4000-8000-000000000000" : String) ≠ "abc" :=
  ⟨rfl, rfl, by decide, by decide⟩

/-- C6 witness: a `CorrelationId` attribute entry carrying a `Value` is
returned as is, identically across calls with different random draws. -/
theorem claim_C6_witness :
    extract_correlation_id (.obj [("CorrelationId", .obj [("Value", .str "corr-1")])])
        (.obj []) [] = .ok (.str "corr-1")
  ∧ extract_correlation_id (.obj [("CorrelationId", .obj [("Value", .str "corr-1")])])
        (.obj []) [] =
      extract_correlation_id (.obj [("CorrelationId", .obj [("Value", .str "corr-1")])])
        (.obj []) [7, 7, 7, 7] :=
  (claim_C6 (.obj [("CorrelationId", .obj [("Value", .str "corr-1")])]) (.obj [])
    [] [7, 7, 7, 7]).1 (.obj [("Value", .str "corr-1")]) (.str "corr-1") rfl rfl
